import Mathlib

/-!
Shallow embedding of the StrideBuddy presence-and-messaging core.

Server side (src/stridebuddy/server/app.py, `create_app`): the in-memory
stores `ONLINE`, `ACTIVE`, `MESSAGE_QUEUES` and the request handlers
`presence_heartbeat`, `presence_status`, `send_message`, `poll_messages`.
Client side (src/stridebuddy/ui/buddy_list.py, `_NetWorker.run`): the
heartbeat/backoff step of the sync loop and the typing-poll URL.

Conventions of the embedding:
- Wall-clock time is modelled in integer ticks of 0.1 s, so the 20 s online
  window is 200 ticks, the 5 min idle window is 3000 ticks, the 0.4 s poll
  sleep is 4 ticks, and a timeout of `t` seconds is `10 * t` ticks.
- A Python dict keyed by screen name is a total function with an explicit
  default (`Option` for `ONLINE`/`ACTIVE`, `[]` for `MESSAGE_QUEUES`),
  matching how the source only ever reads them via `.get` with a default
  or `.setdefault`.
- The Flask `session` is an `Option String` (the authenticated screen
  name, `none` when absent); the request JSON body is an `Option` of a
  record (`none` when `request.get_json(silent=True)` yields no object);
  query parameters are an association list read by first match, like
  `request.args.get`.
- An uncaught Python exception escaping a handler is the `HandlerOutcome.exn`
  outcome.
-/

namespace StrideBuddy

/-- Python `str.strip()` whitespace test (ASCII whitespace; the source never
feeds non-ASCII whitespace to `strip`). -/
def pyIsSpace (c : Char) : Bool :=
  c = ' ' || c = '\t' || c = '\n' || c = '\r' || c = '\x0b' || c = '\x0c'

/-- Python `str.strip()`: drop leading and trailing whitespace. -/
def pyStrip (s : String) : String :=
  ⟨((s.data.dropWhile pyIsSpace).reverse.dropWhile pyIsSpace).reverse⟩

/-- Decimal value of a digit list (caller guarantees all characters are
digits). -/
def digitsToNat (cs : List Char) : Nat :=
  cs.foldl (fun acc c => acc * 10 + (c.toNat - 48)) 0

/-- `pyInt` on the stripped character list: an optional sign followed by at
least one decimal digit. -/
def pyIntCore (cs : List Char) : Option Int :=
  match cs with
  | '-' :: rest =>
    if rest ≠ [] ∧ rest.all Char.isDigit then some (-(digitsToNat rest : Int)) else none
  | '+' :: rest =>
    if rest ≠ [] ∧ rest.all Char.isDigit then some (digitsToNat rest : Int) else none
  | _ =>
    if cs ≠ [] ∧ cs.all Char.isDigit then some (digitsToNat cs : Int) else none

/-- Python `int(str)`: optional surrounding whitespace, optional sign, then
decimal digits; anything else raises `ValueError`, modelled as `none`.
(Underscore digit grouping, accepted by Python 3.6+, is not modelled; the
source never passes such strings.) -/
def pyInt (s : String) : Option Int :=
  pyIntCore (pyStrip s).data

/-- `request.args.get(key, dflt)`: first value for `key`, else the default. -/
def argsGet (args : List (String × String)) (key dflt : String) : String :=
  match args.find? (fun kv => kv.1 == key) with
  | some kv => kv.2
  | none => dflt

/-- A queued chat message, the dict built in `send_message`
(`{"from": ..., "to": ..., "content": ..., "content_html": ..., "ts": ...}`;
`ts` is the enqueue time, serialized as ISO-8601 in the source). -/
structure Message where
  from_ : String
  to_ : String
  content : String
  content_html : String
  ts : Int
  deriving Repr, DecidableEq

/-- The three module-level in-memory stores created in `create_app`:
`ONLINE: dict[str, datetime]`, `ACTIVE: dict[str, datetime]`,
`MESSAGE_QUEUES: dict[str, list[dict]]`. -/
structure ServerState where
  ONLINE : String → Option Int
  ACTIVE : String → Option Int
  MESSAGE_QUEUES : String → List Message

/-- Derived presence status (`"online"`, `"away"`, `"offline"`). -/
inductive Status where
  | online
  | away
  | offline
  deriving Repr, DecidableEq

/-- A handler's JSON response. -/
inductive ApiResp where
  | okAck
  | okStatuses (statuses : List (String × Status))
  | okMessages (messages : List Message)
  | badRequest (error : String)
  | unauthorized
  deriving Repr, DecidableEq

/-- Outcome of running a handler: an HTTP response plus the stores it leaves
behind, or an uncaught Python exception (which Flask turns into a 500). -/
inductive HandlerOutcome where
  | response (resp : ApiResp) (st : ServerState)
  | exn (err : String)

/-- Body of `POST /api/presence/heartbeat`; `active` is the truthiness of the
`"active"` field (`data.get("active")`), `false` when the field is absent. -/
structure HeartbeatBody where
  active : Bool
  deriving Repr, DecidableEq

/-- Handler of `POST /api/presence/heartbeat`: requires a session user,
records `now` in `ONLINE[user]`, and also in `ACTIVE[user]` when the body's
`active` field is truthy.  A missing/malformed JSON body acts as `{}`. -/
def presence_heartbeat (sess : Option String) (body : Option HeartbeatBody)
    (now : Int) (st : ServerState) : ApiResp × ServerState :=
  match sess with
  | none => (ApiResp.unauthorized, st)
  | some user =>
    let data := body.getD { active := false }
    let st1 := { st with ONLINE := fun n => if n = user then some now else st.ONLINE n }
    let st2 :=
      if data.active then
        { st1 with ACTIVE := fun n => if n = user then some now else st1.ACTIVE n }
      else st1
    (ApiResp.okAck, st2)

/-- Python `str.split(",")` over the character list: cut at every comma,
keeping empty pieces (so `"a,,b"` gives `["a", "", "b"]`). -/
def splitCommaAux (cs : List Char) (cur : List Char) : List String :=
  match cs with
  | [] => [⟨cur.reverse⟩]
  | c :: rest =>
    if c = ',' then ⟨cur.reverse⟩ :: splitCommaAux rest []
    else splitCommaAux rest (c :: cur)

/-- Python `str.split(",")`. -/
def splitComma (s : String) : List String :=
  splitCommaAux s.data []

/-- `?names=` parsing in `presence_status`: strip the raw parameter, split on
commas when non-empty, keep the non-empty pieces. -/
def pyParseNames (raw : String) : List String :=
  let names_param := pyStrip raw
  (if names_param = "" then [] else splitComma names_param).filter (fun n => n ≠ "")

/-- The status the loop body of `presence_status` computes for one name:
`offline` when there is no `ONLINE` entry or `now - last > 200` ticks (20 s);
otherwise `away` when `now - last_active ≥ 3000` ticks (5 min), with
`last_active = ACTIVE.get(name, last)`; otherwise `online`. -/
def statusName (st : ServerState) (now : Int) (name : String) : Status :=
  match st.ONLINE name with
  | none => Status.offline
  | some last =>
    if now - last > 200 then Status.offline
    else if now - ((st.ACTIVE name).getD last) ≥ 3000 then Status.away
    else Status.online

/-- Handler of `GET /api/presence/status`.  The source reads no session here
(there is no authentication check in this handler); the `_sess` parameter
only models the request context.  Duplicate names in the query produce equal
entries, so the association list below denotes the same mapping as the
Python dict. -/
def presence_status (_sess : Option String) (namesArg : String) (now : Int)
    (st : ServerState) : ApiResp × ServerState :=
  let names := pyParseNames namesArg
  (ApiResp.okStatuses (names.map (fun name => (name, statusName st now name))), st)

/-- Body of `POST /api/messages/send`; each field is `none` when absent
(`data.get(...) or ""` turns that into the empty string). -/
structure SendBody where
  to_ : Option String
  content : Option String
  content_html : Option String
  deriving Repr, DecidableEq

/-- Handler of `POST /api/messages/send`: requires a session user, strips
`to`/`content`/`content_html`, rejects with 400 when `to` or `content` is
empty, otherwise appends one message (with `from` = the session user) to the
recipient's queue (`MESSAGE_QUEUES.setdefault(to, []).append(msg)`).  No
check that the recipient exists is performed. -/
def send_message (sess : Option String) (body : Option SendBody) (now : Int)
    (st : ServerState) : ApiResp × ServerState :=
  match sess with
  | none => (ApiResp.unauthorized, st)
  | some user =>
    let data := body.getD { to_ := none, content := none, content_html := none }
    let to_ := pyStrip (data.to_.getD "")
    let content := pyStrip (data.content.getD "")
    let content_html := pyStrip (data.content_html.getD "")
    if to_ = "" ∨ content = "" then
      (ApiResp.badRequest "to and content required", st)
    else
      let msg : Message :=
        { from_ := user, to_ := to_, content := content,
          content_html := content_html, ts := now }
      (ApiResp.okAck,
        { st with MESSAGE_QUEUES := fun n =>
            if n = to_ then st.MESSAGE_QUEUES n ++ [msg] else st.MESSAGE_QUEUES n })

/-- The `while time.time() < deadline` loop of `poll_messages`, with the
queues fixed for the duration of the request (the sequential view the other
handlers also take): each iteration reads the caller's queue, returns a copy
of it and empties it when non-empty, else sleeps 0.4 s (4 ticks) and
retries; past the deadline it returns the empty list. -/
def pollLoop (name : String) (queues : String → List Message)
    (now deadline : Int) : List Message × (String → List Message) :=
  if h : now < deadline then
    if (queues name).isEmpty then
      pollLoop name queues (now + 4) deadline
    else
      (queues name, fun n => if n = name then [] else queues n)
  else
    ([], queues)
termination_by (deadline - now).toNat
decreasing_by omega

/-- Handler of `GET /api/messages/poll`: requires a session user, parses
`timeout` (default `"15"`) with Python `int` — an unparsable value raises an
uncaught `ValueError` — computes `deadline = now + min(timeout, 30)` seconds,
and runs the drain loop on the session user's own queue. -/
def poll_messages (sess : Option String) (args : List (String × String))
    (now : Int) (st : ServerState) : HandlerOutcome :=
  match sess with
  | none => HandlerOutcome.response ApiResp.unauthorized st
  | some screen_name =>
    match pyInt (argsGet args "timeout" "15") with
    | none => HandlerOutcome.exn "ValueError"
    | some timeout =>
      let deadline := now + 10 * min timeout 30
      let out := pollLoop screen_name st.MESSAGE_QUEUES now deadline
      HandlerOutcome.response (ApiResp.okMessages out.1)
        { st with MESSAGE_QUEUES := out.2 }

/-- The URL rules registered by `create_app`, transcribed from the route
decorators in source order (method, path). -/
def appRoutes : List (String × String) :=
  [ ("GET", "/"),
    ("GET", "/favicon.ico"),
    ("GET", "/signup"),
    ("GET", "/forgot"),
    ("GET", "/help"),
    ("POST", "/api/presence/heartbeat"),
    ("GET", "/api/presence/online"),
    ("GET", "/api/presence/status"),
    ("POST", "/api/messages/send"),
    ("GET", "/api/messages/poll"),
    ("GET", "/api/buddies"),
    ("POST", "/api/buddies"),
    ("POST", "/api/buddies/rename_group"),
    ("POST", "/api/buddies/set_flags"),
    ("DELETE", "/api/buddies"),
    ("POST", "/api/auth/signup"),
    ("POST", "/api/auth/login"),
    ("POST", "/api/auth/request_reset"),
    ("POST", "/api/auth/reset") ]

/-- The path the client sync worker polls for typing state
(`buddy_list.py`: `self._session.get(f"{self.base_url}/api/messages/typing", ...)`). -/
def typingPollPath : String := "/api/messages/typing"

/-! ### Client sync worker (`_NetWorker.run` in `buddy_list.py`)

Only the heartbeat step and its backoff/skip control flow are embedded: the
network success of the heartbeat request is the loop's only branching input.
Durations (`sleep`, `backoff`) are rationals in seconds, as in the source's
floats. -/

/-- Observable effect of one iteration of `_NetWorker.run`, as driven by the
heartbeat outcome: the connectivity state emitted on the `state` signal, the
seconds slept inside the heartbeat step, whether the remaining steps
(status query, typing poll, message long-poll) run this iteration, and the
backoff value carried to the next iteration. -/
structure IterEffect where
  emit : String
  sleep : ℚ
  stepsRun : Bool
  backoff : ℚ
  deriving Repr, DecidableEq

/-- The heartbeat step of `_NetWorker.run`: on success emit `"connected"`,
reset `backoff = 1.0` and fall through to the remaining steps; on failure
emit `"reconnecting"`, `time.sleep(min(backoff, 8.0))`, set
`backoff = min(backoff * 2.0, 8.0)` and `continue` (skipping the remaining
steps). -/
def hbIteration (hbOk : Bool) (backoff : ℚ) : IterEffect :=
  if hbOk then
    { emit := "connected", sleep := 0, stepsRun := true, backoff := 1 }
  else
    { emit := "reconnecting", sleep := min backoff 8, stepsRun := false,
      backoff := min (backoff * 2) 8 }

/-- Trace of the worker loop over a sequence of heartbeat outcomes, threading
the backoff value (initially `1.0` when the loop starts). -/
def runWorker (outcomes : List Bool) (backoff : ℚ) : List IterEffect :=
  match outcomes with
  | [] => []
  | ok :: rest =>
    let e := hbIteration ok backoff
    e :: runWorker rest e.backoff

/-! ### Sequences of send requests (for the mailbox FIFO property) -/

/-- One authenticated `POST /api/messages/send` request addressed to a fixed
recipient: the session user issuing it, the payload fields, and its arrival
time. -/
structure SendReq where
  sender : String
  content : String
  content_html : String
  ts : Int
  deriving Repr, DecidableEq

/-- The message `send_message` enqueues for recipient `r` from request `q`
when `r` and the payload fields are already stripped. -/
def mkMsg (r : String) (q : SendReq) : Message :=
  { from_ := q.sender, to_ := r, content := q.content,
    content_html := q.content_html, ts := q.ts }

/-- Run a sequence of send requests for recipient `r` through the
`send_message` handler, threading the server state. -/
def sendAll (r : String) (reqs : List SendReq) (st : ServerState) : ServerState :=
  reqs.foldl
    (fun s q =>
      (send_message (some q.sender)
        (some { to_ := some r, content := some q.content,
                content_html := some q.content_html }) q.ts s).2)
    st

/-! ### Closed form of the poll loop -/

/-- With the queues fixed, the drain loop returns the caller's whole queue
and empties it when the deadline is still ahead and the queue is non-empty,
and otherwise returns the empty list leaving the queues untouched. -/
theorem pollLoop_closed (name : String) (queues : String → List Message)
    (now deadline : Int) :
    pollLoop name queues now deadline =
      if now < deadline ∧ queues name ≠ [] then
        (queues name, fun n => if n = name then [] else queues n)
      else ([], queues) := by
  have H : ∀ (k : ℕ) (now : Int), (deadline - now).toNat ≤ k →
      pollLoop name queues now deadline =
        if now < deadline ∧ queues name ≠ [] then
          (queues name, fun n => if n = name then [] else queues n)
        else ([], queues) := by
    intro k
    induction k with
    | zero =>
      intro now hk
      have hnd : ¬ now < deadline := by omega
      rw [pollLoop]
      simp [hnd]
    | succ k ih =>
      intro now hk
      rw [pollLoop]
      by_cases h1 : now < deadline
      · cases hq : queues name with
        | nil =>
          have step := ih (now + 4) (by omega)
          simp [h1, hq] at step ⊢
          exact step
        | cons a l =>
          simp [h1, hq]
      · simp [h1]
  exact H (deadline - now).toNat now le_rfl

/-- Appending a query parameter whose key differs from the one looked up does
not change `request.args.get`. -/
theorem argsGet_append_other (args : List (String × String)) (k v key dflt : String)
    (hk : k ≠ key) :
    argsGet (args ++ [(k, v)]) key dflt = argsGet args key dflt := by
  induction args with
  | nil => simp [argsGet, hk]
  | cons kv rest ih =>
    simp only [argsGet, List.cons_append, List.find?] at ih ⊢
    cases hkv : kv.1 == key with
    | true => rfl
    | false => exact ih

/-- Effect of a sequence of well-formed sends for recipient `r` (already
stripped, non-empty fields): the presence stores are untouched and exactly
the corresponding messages are appended, in order, to `r`'s queue. -/
theorem sendAll_state (r : String) (hr : pyStrip r = r) (hrne : r ≠ "")
    (reqs : List SendReq)
    (hc : ∀ q ∈ reqs, pyStrip q.content = q.content ∧ q.content ≠ "" ∧
      pyStrip q.content_html = q.content_html)
    (st : ServerState) :
    (sendAll r reqs st).ONLINE = st.ONLINE ∧
    (sendAll r reqs st).ACTIVE = st.ACTIVE ∧
    (sendAll r reqs st).MESSAGE_QUEUES =
      fun n => if n = r then st.MESSAGE_QUEUES r ++ reqs.map (mkMsg r)
               else st.MESSAGE_QUEUES n := by
  induction reqs generalizing st with
  | nil =>
    refine ⟨rfl, rfl, ?_⟩
    funext n
    by_cases hn : n = r <;> simp [sendAll, hn]
  | cons q rest ih =>
    obtain ⟨h1, h2, h3⟩ := hc q (List.mem_cons_self q rest)
    have hstep :
        (send_message (some q.sender)
          (some { to_ := some r, content := some q.content,
                  content_html := some q.content_html }) q.ts st).2 =
        { st with MESSAGE_QUEUES := fun n =>
            if n = r then st.MESSAGE_QUEUES n ++ [mkMsg r q]
            else st.MESSAGE_QUEUES n } := by
      simp [send_message, hr, h1, h3, hrne, h2, mkMsg]
    have hun : sendAll r (q :: rest) st =
        sendAll r rest
          { st with MESSAGE_QUEUES := fun n =>
              if n = r then st.MESSAGE_QUEUES n ++ [mkMsg r q]
              else st.MESSAGE_QUEUES n } := by
      simp only [sendAll, List.foldl_cons]
      rw [hstep]
    obtain ⟨o1, a1, m1⟩ := ih (fun p hp => hc p (List.mem_cons_of_mem q hp)) _
    rw [hun]
    refine ⟨o1, a1, ?_⟩
    rw [m1]
    funext n
    by_cases hn : n = r <;> simp [hn]

/-- C1: enqueue order is preserved and a drain empties the queue.  For every
recipient `r` (a stripped, non-empty screen name) and every non-empty
sequence of successful send requests for `r` starting from a state with no
pending messages for `r`, a poll by `r` whose effective timeout is positive
returns exactly the sent messages in enqueue order and empties `r`'s queue,
so an immediately following poll returns the empty list. -/
theorem C1_fifo_drain (r : String) (hr : pyStrip r = r) (hrne : r ≠ "")
    (reqs : List SendReq) (hne : reqs ≠ [])
    (hc : ∀ q ∈ reqs, pyStrip q.content = q.content ∧ q.content ≠ "" ∧
      pyStrip q.content_html = q.content_html)
    (st0 : ServerState) (h0 : st0.MESSAGE_QUEUES r = [])
    (args args2 : List (String × String)) (now now2 : Int) (t t2 : Int)
    (ht : pyInt (argsGet args "timeout" "15") = some t) (htpos : 0 < t)
    (ht2 : pyInt (argsGet args2 "timeout" "15") = some t2) :
    ∃ st1 : ServerState,
      poll_messages (some r) args now (sendAll r reqs st0) =
        HandlerOutcome.response (ApiResp.okMessages (reqs.map (mkMsg r))) st1 ∧
      st1.MESSAGE_QUEUES r = [] ∧
      poll_messages (some r) args2 now2 st1 =
        HandlerOutcome.response (ApiResp.okMessages []) st1 := by
  obtain ⟨o1, a1, m1⟩ := sendAll_state r hr hrne reqs hc st0
  have hq : (sendAll r reqs st0).MESSAGE_QUEUES r = reqs.map (mkMsg r) := by
    rw [m1]; simp [h0]
  have hqne : (sendAll r reqs st0).MESSAGE_QUEUES r ≠ [] := by
    rw [hq]; simpa using hne
  have hd : now < now + 10 * min t 30 := by omega
  refine ⟨{ sendAll r reqs st0 with MESSAGE_QUEUES := fun n =>
      if n = r then [] else (sendAll r reqs st0).MESSAGE_QUEUES n }, ?_, ?_, ?_⟩
  · simp [poll_messages, ht, pollLoop_closed, hd, hqne, hq, hne]
  · simp
  · simp [poll_messages, ht2, pollLoop_closed]

/-- C1 witness: two concrete sends to `"bob"` followed by a poll return both
messages in order; a second poll returns nothing. -/
theorem C1_fifo_drain_witness :
    ∃ st1 : ServerState,
      poll_messages (some "bob") [] 0
          (sendAll "bob" [⟨"alice", "hi", "", 0⟩, ⟨"carol", "yo", "", 1⟩]
            ⟨fun _ => none, fun _ => none, fun _ => []⟩) =
        HandlerOutcome.response
          (ApiResp.okMessages
            [mkMsg "bob" ⟨"alice", "hi", "", 0⟩, mkMsg "bob" ⟨"carol", "yo", "", 1⟩]) st1 ∧
      st1.MESSAGE_QUEUES "bob" = [] ∧
      poll_messages (some "bob") [] 7 st1 =
        HandlerOutcome.response (ApiResp.okMessages []) st1 :=
  C1_fifo_drain "bob" (by decide) (by decide)
    [⟨"alice", "hi", "", 0⟩, ⟨"carol", "yo", "", 1⟩] (by decide)
    (by
      intro q hq
      simp only [List.mem_cons, List.mem_singleton] at hq
      rcases hq with h | h | h
      · subst h; exact ⟨by decide, by decide, by decide⟩
      · subst h; exact ⟨by decide, by decide, by decide⟩
      · cases h)
    ⟨fun _ => none, fun _ => none, fun _ => []⟩ rfl
    [] [] 0 7 15 15 (by decide) (by decide) (by decide)

/-! ### Presence status characterization -/

/-- `statusName` is `offline` exactly when there is no heartbeat entry or the
last heartbeat is strictly older than 200 ticks (20 s). -/
theorem statusName_offline_iff (st : ServerState) (now : Int) (name : String) :
    statusName st now name = Status.offline ↔
      ∀ last, st.ONLINE name = some last → now - last > 200 := by
  unfold statusName
  cases h : st.ONLINE name with
  | none => simp
  | some last =>
    simp only [Option.some.injEq]
    split_ifs with h1 h2 <;>
      first
        | (simp only [true_iff]; intro l hl; omega)
        | (constructor
           · intro hfalse; cases hfalse
           · intro hall; exact absurd (hall last rfl) (by omega))

/-- `statusName` is `away` exactly when the heartbeat is within 200 ticks but
the last activity (defaulting to the heartbeat) is at least 3000 ticks
(5 min) old. -/
theorem statusName_away_iff (st : ServerState) (now : Int) (name : String) :
    statusName st now name = Status.away ↔
      ∃ last, st.ONLINE name = some last ∧ now - last ≤ 200 ∧
        now - (st.ACTIVE name).getD last ≥ 3000 := by
  unfold statusName
  cases h : st.ONLINE name with
  | none => simp
  | some last =>
    simp only [Option.some.injEq]
    split_ifs with h1 h2
    · constructor
      · intro hfalse; cases hfalse
      · rintro ⟨l, rfl, hl2, hl3⟩; omega
    · simp only [true_iff]
      exact ⟨last, rfl, by omega, h2⟩
    · constructor
      · intro hfalse; cases hfalse
      · rintro ⟨l, rfl, hl2, hl3⟩; omega

/-- `statusName` is `online` exactly when the heartbeat is within 200 ticks
and the last activity (defaulting to the heartbeat) is less than 3000 ticks
old. -/
theorem statusName_online_iff (st : ServerState) (now : Int) (name : String) :
    statusName st now name = Status.online ↔
      ∃ last, st.ONLINE name = some last ∧ now - last ≤ 200 ∧
        now - (st.ACTIVE name).getD last < 3000 := by
  unfold statusName
  cases h : st.ONLINE name with
  | none => simp
  | some last =>
    simp only [Option.some.injEq]
    split_ifs with h1 h2
    · constructor
      · intro hfalse; cases hfalse
      · rintro ⟨l, rfl, hl2, hl3⟩; omega
    · constructor
      · intro hfalse; cases hfalse
      · rintro ⟨l, rfl, hl2, hl3⟩; omega
    · simp only [true_iff]
      exact ⟨last, rfl, by omega, by omega⟩

/-- C2 (amended): the status endpoint leaves the stores unchanged and maps
each requested name to its derived status; that status is `offline` iff the
name has no heartbeat entry or the heartbeat is MORE than 20 s old (the
boundary `now - last = 20 s` still counts as reachable, unlike the claim's
"not less than"), `away` iff reachable but idle for at least 5 min, and
`online` otherwise. -/
theorem C2_status_amended (st : ServerState) (now : Int) (sess : Option String)
    (namesArg : String) (name : String) (hmem : name ∈ pyParseNames namesArg) :
    (presence_status sess namesArg now st).2 = st ∧
    (presence_status sess namesArg now st).1 =
      ApiResp.okStatuses
        ((pyParseNames namesArg).map (fun n => (n, statusName st now n))) ∧
    (name, statusName st now name) ∈
      (pyParseNames namesArg).map (fun n => (n, statusName st now n)) ∧
    (statusName st now name = Status.offline ↔
      ∀ last, st.ONLINE name = some last → now - last > 200) ∧
    (statusName st now name = Status.away ↔
      ∃ last, st.ONLINE name = some last ∧ now - last ≤ 200 ∧
        now - (st.ACTIVE name).getD last ≥ 3000) ∧
    (statusName st now name = Status.online ↔
      ∃ last, st.ONLINE name = some last ∧ now - last ≤ 200 ∧
        now - (st.ACTIVE name).getD last < 3000) :=
  ⟨rfl, rfl, List.mem_map.mpr ⟨name, hmem, rfl⟩,
    statusName_offline_iff st now name, statusName_away_iff st now name,
    statusName_online_iff st now name⟩

/-- C2 witness: a heartbeat entry at tick 0 queried at tick 190 (19 s). -/
theorem C2_status_amended_witness :
    let st : ServerState :=
      ⟨fun n => if n = "alice" then some 0 else none,
       fun n => if n = "alice" then some 0 else none, fun _ => []⟩
    (presence_status (some "carol") "alice" 190 st).2 = st ∧
    (presence_status (some "carol") "alice" 190 st).1 =
      ApiResp.okStatuses
        ((pyParseNames "alice").map (fun n => (n, statusName st 190 n))) ∧
    ("alice", statusName st 190 "alice") ∈
      (pyParseNames "alice").map (fun n => (n, statusName st 190 n)) ∧
    (statusName st 190 "alice" = Status.offline ↔
      ∀ last, st.ONLINE "alice" = some last → 190 - last > 200) ∧
    (statusName st 190 "alice" = Status.away ↔
      ∃ last, st.ONLINE "alice" = some last ∧ 190 - last ≤ 200 ∧
        190 - (st.ACTIVE "alice").getD last ≥ 3000) ∧
    (statusName st 190 "alice" = Status.online ↔
      ∃ last, st.ONLINE "alice" = some last ∧ 190 - last ≤ 200 ∧
        190 - (st.ACTIVE "alice").getD last < 3000) :=
  C2_status_amended _ 190 (some "carol") "alice" "alice" (by decide)

/-- C2 counterexample: at exactly 20 s (`now - last_heartbeat = 200` ticks,
so "not less than the 20 s window" as the claim puts it), the endpoint
reports `online`, not `offline`. -/
theorem C2_status_boundary_counterexample :
    let st : ServerState :=
      ⟨fun n => if n = "alice" then some 0 else none,
       fun n => if n = "alice" then some 0 else none, fun _ => []⟩
    ¬ ((200 : Int) - 0 < 200) ∧
    (presence_status (some "carol") "alice" 200 st).1 =
      ApiResp.okStatuses [("alice", Status.online)] ∧
    ApiResp.okStatuses [("alice", Status.online)] ≠
      ApiResp.okStatuses [("alice", Status.offline)] := by
  refine ⟨by norm_num, by decide, by decide⟩

/-! ### Authentication of the presence/messaging endpoints -/

/-- C3 (amended): without a session identity the heartbeat, send and poll
handlers answer `unauthorized` (401) and leave every store unchanged, but
the status endpoint performs no authentication check at all: it answers any
caller with an `okStatuses` response (and the typing endpoint does not
exist, see the route table). -/
theorem C3_auth_amended (st : ServerState) (now : Int)
    (body : Option HeartbeatBody) (sbody : Option SendBody)
    (args : List (String × String)) (namesArg : String) :
    presence_heartbeat none body now st = (ApiResp.unauthorized, st) ∧
    send_message none sbody now st = (ApiResp.unauthorized, st) ∧
    poll_messages none args now st =
      HandlerOutcome.response ApiResp.unauthorized st ∧
    ∃ l, presence_status none namesArg now st = (ApiResp.okStatuses l, st) :=
  ⟨rfl, rfl, rfl, _, rfl⟩

/-- C3 counterexample: an unauthenticated status query is answered with a
200 `okStatuses` response instead of the 401 the claim demands. -/
theorem C3_status_unauthenticated_counterexample :
    presence_status none "alice" 0 ⟨fun _ => none, fun _ => none, fun _ => []⟩ =
      (ApiResp.okStatuses [("alice", Status.offline)],
        ⟨fun _ => none, fun _ => none, fun _ => []⟩) ∧
    ApiResp.okStatuses [("alice", Status.offline)] ≠ ApiResp.unauthorized :=
  ⟨rfl, by decide⟩

/-! ### Long-poll dispatcher outcomes -/

/-- C4 (amended): the handler computes `deadline = now + min(timeout, 30)`
seconds and has exactly two outcomes — the caller's messages, drained, when
the deadline is still ahead AND the mailbox is non-empty, and the empty list
(with the stores untouched) otherwise.  The claim's unconditional
"non-empty mailbox ⇒ HAS_DATA" reading fails when the effective timeout is
non-positive, since the deadline check precedes the first drain. -/
theorem C4_dispatcher_amended (u : String) (args : List (String × String))
    (now : Int) (st : ServerState) (t : Int)
    (ht : pyInt (argsGet args "timeout" "15") = some t) :
    poll_messages (some u) args now st =
      if now < now + 10 * min t 30 ∧ st.MESSAGE_QUEUES u ≠ [] then
        HandlerOutcome.response (ApiResp.okMessages (st.MESSAGE_QUEUES u))
          { st with MESSAGE_QUEUES := fun n =>
              if n = u then [] else st.MESSAGE_QUEUES n }
      else HandlerOutcome.response (ApiResp.okMessages []) st := by
  by_cases hcond : 0 < t ∧ st.MESSAGE_QUEUES u ≠ []
  · simp [poll_messages, ht, pollLoop_closed, hcond.1, hcond.2]
  · simp only [not_and_or] at hcond
    rcases hcond with h1 | h2
    · have h1m : ¬ (0 < t) := h1
      simp [poll_messages, ht, pollLoop_closed, h1m]
    · have h2m : st.MESSAGE_QUEUES u = [] := not_not.mp h2
      simp [poll_messages, ht, pollLoop_closed, h2m]

/-- C4 witness: a pending message and a 15 s timeout give the HAS_DATA
outcome of the amended dispatcher description. -/
theorem C4_dispatcher_amended_witness :
    let st : ServerState :=
      ⟨fun _ => none, fun _ => none,
        fun n => if n = "bob" then [⟨"alice", "bob", "hi", "", 3⟩] else []⟩
    poll_messages (some "bob") [("timeout", "15")] 9 st =
      if (9 : Int) < 9 + 10 * min 15 30 ∧ st.MESSAGE_QUEUES "bob" ≠ [] then
        HandlerOutcome.response (ApiResp.okMessages (st.MESSAGE_QUEUES "bob"))
          { st with MESSAGE_QUEUES := fun n =>
              if n = "bob" then [] else st.MESSAGE_QUEUES n }
      else HandlerOutcome.response (ApiResp.okMessages []) st :=
  C4_dispatcher_amended "bob" [("timeout", "15")] 9 _ 15 (by decide)

/-- C4 counterexample: with `timeout=0` and a non-empty mailbox the handler
returns the empty list and drains nothing, contradicting the claim's
"if the recipient's mailbox is non-empty it returns the drained messages
immediately". -/
theorem C4_nonempty_mailbox_counterexample :
    let st : ServerState :=
      ⟨fun _ => none, fun _ => none,
        fun n => if n = "bob" then [⟨"alice", "bob", "hi", "", 0⟩] else []⟩
    st.MESSAGE_QUEUES "bob" ≠ [] ∧
    poll_messages (some "bob") [("timeout", "0")] 5 st =
      HandlerOutcome.response (ApiResp.okMessages []) st := by
  refine ⟨by decide, ?_⟩
  have h : pyInt "0" = some 0 := by decide
  norm_num [poll_messages, argsGet, h, pollLoop_closed]

/-! ### The typing endpoint -/

/-- C5: the server registers no route at all for `/api/messages/typing`,
the path the client sync worker polls for typing state (Flask therefore
answers it 404, never `{ok, typing}`). -/
theorem C5_no_typing_route :
    (appRoutes.map (fun rt => rt.2)).contains typingPollPath = false := by
  decide

/-! ### Client sync worker backoff -/

/-- C6: from the reset backoff value `1.0`, five consecutive failed
heartbeats sleep 1, 2, 4, 8, 8 seconds, each emitting `"reconnecting"` and
skipping the status/typing/message steps of that iteration; any successful
heartbeat emits `"connected"`, resets the backoff to `1.0` and runs the
remaining steps. -/
theorem C6_backoff_sequence :
    ((runWorker [false, false, false, false, false, true] 1).map
        (fun e => (e.emit, e.sleep, e.stepsRun)) =
      [("reconnecting", (1 : ℚ), false), ("reconnecting", 2, false),
       ("reconnecting", 4, false), ("reconnecting", 8, false),
       ("reconnecting", 8, false), ("connected", 0, true)]) ∧
    ∀ b : ℚ, hbIteration true b =
      { emit := "connected", sleep := 0, stepsRun := true, backoff := 1 } := by
  refine ⟨?_, fun b => rfl⟩
  norm_num [runWorker, hbIteration, min_def]

/-! ### Malformed request inputs -/

/-- C7: a non-numeric `timeout` query parameter makes the poll handler raise
an uncaught `ValueError` (`int(request.args.get("timeout", "15"))` is
unguarded), so the request dies with a 500 instead of a structured error —
whereas a missing/malformed JSON body is tolerated by heartbeat and send
(`request.get_json(silent=True) or {}`). -/
theorem C7_malformed_timeout_crashes :
    poll_messages (some "alice") [("timeout", "abc")] 0
        ⟨fun _ => none, fun _ => none, fun _ => []⟩ =
      HandlerOutcome.exn "ValueError" ∧
    (presence_heartbeat (some "alice") none 0
        ⟨fun _ => none, fun _ => none, fun _ => []⟩).1 = ApiResp.okAck ∧
    send_message (some "alice") none 0
        ⟨fun _ => none, fun _ => none, fun _ => []⟩ =
      (ApiResp.badRequest "to and content required",
        ⟨fun _ => none, fun _ => none, fun _ => []⟩) := by
  refine ⟨?_, rfl, rfl⟩
  have h : pyInt "abc" = none := by decide
  simp [poll_messages, argsGet, h]

/-! ### Send validation -/

/-- C8: an authenticated send is rejected with the 400 response exactly when
the stripped `to` or the stripped `content` is empty (an absent field acts as
the empty string), and otherwise appends exactly one message — whose `from`
is the session user — to the recipient's queue and acks, with no check that
the recipient exists (the state carries no user registry and success does
not depend on `to`). -/
theorem C8_send_validation (user : String) (body : Option SendBody) (now : Int)
    (st : ServerState) :
    let data := body.getD { to_ := none, content := none, content_html := none }
    let toS := pyStrip (data.to_.getD "")
    let contentS := pyStrip (data.content.getD "")
    let htmlS := pyStrip (data.content_html.getD "")
    ((send_message (some user) body now st).1 =
        ApiResp.badRequest "to and content required" ↔ toS = "" ∨ contentS = "") ∧
    send_message (some user) body now st =
      (if toS = "" ∨ contentS = "" then
        (ApiResp.badRequest "to and content required", st)
      else
        (ApiResp.okAck,
          { st with MESSAGE_QUEUES := fun n =>
              if n = toS then
                st.MESSAGE_QUEUES n ++
                  [{ from_ := user, to_ := toS, content := contentS,
                     content_html := htmlS, ts := now }]
              else st.MESSAGE_QUEUES n })) := by
  intro data toS contentS htmlS
  by_cases hv : toS = "" ∨ contentS = ""
  · simp [send_message, hv]
  · constructor
    · simp only [send_message]
      rw [if_neg hv]
      simpa using hv
    · simp [send_message, hv]

/-! ### Poll with a non-positive timeout -/

/-- C9: a poll whose parsed timeout is zero or negative returns
`{ok, messages: []}` at once and leaves the caller's mailbox (and every
store) unchanged, pending messages included, because the deadline
`now + min(timeout, 30)` is not in the future. -/
theorem C9_nonpositive_timeout (u : String) (args : List (String × String))
    (now : Int) (st : ServerState) (t : Int)
    (ht : pyInt (argsGet args "timeout" "15") = some t) (hle : t ≤ 0) :
    poll_messages (some u) args now st =
      HandlerOutcome.response (ApiResp.okMessages []) st := by
  have hnd : ¬ (0 < t) := by omega
  simp [poll_messages, ht, pollLoop_closed, hnd]

/-- C9 witness: `timeout=0` with a message pending for the caller. -/
theorem C9_nonpositive_timeout_witness :
    poll_messages (some "bob") [("timeout", "0")] 40
        ⟨fun _ => none, fun _ => none,
          fun n => if n = "bob" then [⟨"alice", "bob", "hey", "", 2⟩] else []⟩ =
      HandlerOutcome.response (ApiResp.okMessages [])
        ⟨fun _ => none, fun _ => none,
          fun n => if n = "bob" then [⟨"alice", "bob", "hey", "", 2⟩] else []⟩ :=
  C9_nonpositive_timeout "bob" [("timeout", "0")] 40 _ 0 (by decide) (by omega)

/-! ### What the poll result may depend on -/

/-- C10: the poll handler's outcome is determined by the session identity,
the `timeout` parameter and the current queues — extra query parameters
(such as the `screen_name` the client sends) change nothing — and any state
change it makes is confined to the session user's own mailbox. -/
theorem C10_poll_depends_only_on_session (u : String)
    (args1 args2 : List (String × String)) (now : Int) (st : ServerState)
    (h : argsGet args1 "timeout" "15" = argsGet args2 "timeout" "15") :
    poll_messages (some u) args1 now st = poll_messages (some u) args2 now st ∧
    (∀ k v, k ≠ "timeout" →
      poll_messages (some u) (args1 ++ [(k, v)]) now st =
        poll_messages (some u) args1 now st) ∧
    ∀ resp st2, poll_messages (some u) args1 now st =
        HandlerOutcome.response resp st2 →
      st2.ONLINE = st.ONLINE ∧ st2.ACTIVE = st.ACTIVE ∧
      ∀ n, n ≠ u → st2.MESSAGE_QUEUES n = st.MESSAGE_QUEUES n := by
  refine ⟨by simp only [poll_messages, h], ?_, ?_⟩
  · intro k v hk
    simp only [poll_messages, argsGet_append_other args1 k v "timeout" "15" hk]
  · intro resp st2 heq
    cases hp : pyInt (argsGet args1 "timeout" "15") with
    | none => simp [poll_messages, hp] at heq
    | some t =>
      rw [show poll_messages (some u) args1 now st =
          HandlerOutcome.response
            (ApiResp.okMessages
              (pollLoop u st.MESSAGE_QUEUES now (now + 10 * min t 30)).1)
            { st with MESSAGE_QUEUES :=
                (pollLoop u st.MESSAGE_QUEUES now (now + 10 * min t 30)).2 }
          from by simp [poll_messages, hp]] at heq
      rw [pollLoop_closed] at heq
      by_cases hcond : now < now + 10 * min t 30 ∧ st.MESSAGE_QUEUES u ≠ []
      · rw [if_pos hcond] at heq
        cases heq
        refine ⟨rfl, rfl, fun n hn => ?_⟩
        simp [hn]
      · rw [if_neg hcond] at heq
        cases heq
        exact ⟨rfl, rfl, fun n _ => rfl⟩

/-- C10 witness: the client's extra `screen_name` parameter does not change
the poll outcome, and the drain touches only the session user's queue. -/
theorem C10_poll_depends_only_on_session_witness :
    let st : ServerState :=
      ⟨fun _ => none, fun _ => none,
        fun n => if n = "alice" then [⟨"bob", "alice", "hi", "", 1⟩] else []⟩
    (poll_messages (some "alice") [("screen_name", "alice")] 0 st =
      poll_messages (some "alice") [] 0 st) ∧
    (∀ k v, k ≠ "timeout" →
      poll_messages (some "alice") ([("screen_name", "alice")] ++ [(k, v)]) 0 st =
        poll_messages (some "alice") [("screen_name", "alice")] 0 st) ∧
    ∀ resp st2, poll_messages (some "alice") [("screen_name", "alice")] 0 st =
        HandlerOutcome.response resp st2 →
      st2.ONLINE = st.ONLINE ∧ st2.ACTIVE = st.ACTIVE ∧
      ∀ n, n ≠ "alice" → st2.MESSAGE_QUEUES n = st.MESSAGE_QUEUES n :=
  C10_poll_depends_only_on_session "alice" [("screen_name", "alice")] [] 0 _
    (by decide)

end StrideBuddy
